import Mathlib

/-!
Shallow embedding of the Maritime Pricing Simulator core
(`Pricing_app_tester.py`): the tiered fee resolver `get_fee_for_month`,
the onboarding/cost projector `calculate_costs_over_time`, and the
module-level summary metrics (TCO, effective per-unit price, pairwise
savings annotations, model exclusion).

Conventions: Python ints (unit counts, fees, costs) are `Int`; the
contract length, which only drives `range(1, contract_months + 1)`,
is `ℕ`; Python true division (`math.ceil(a / b)`, the effective-price
and savings divisions) is division in `ℚ`.  A tier dictionary is a
list of (start month, fee) pairs with distinct keys, mirroring
`tiers_dict.items()`.
-/

namespace PricingTool

/-- A scheduled-fee tier: (start month, monthly fee), one entry of
`scheduled_fee_tiers.items()`. -/
abbrev Tier := Int × Int

/-- Insert a tier into a list kept in descending start-month order:
one step of the sort behind `sorted(tiers_dict.items(), reverse=True)`
(dict keys are distinct, so ordering by key alone is the full
lexicographic tuple order Python uses). -/
def insertTierDesc (p : Tier) : List Tier → List Tier
  | [] => [p]
  | q :: rest => if q.1 ≤ p.1 then p :: q :: rest else q :: insertTierDesc p rest

/-- Sort the tier list into descending start-month order:
`sorted(tiers_dict.items(), reverse=True)`. -/
def sortTiersDesc : List Tier → List Tier
  | [] => []
  | p :: rest => insertTierDesc p (sortTiersDesc rest)

/-- The loop body of `get_fee_for_month`: scan the descending-sorted
tiers, return the fee of the first tier whose start month is ≤ the
month (the `break`), else the initial `fee = 0`. -/
def feeScan (month : Int) : List Tier → Int
  | [] => 0
  | (tm, tf) :: rest => if tm ≤ month then tf else feeScan month rest

/-- Embeds `get_fee_for_month(month, tiers_dict)`. -/
def get_fee_for_month (month : Int) (tiers : List Tier) : Int :=
  feeScan month (sortTiersDesc tiers)

/-- Embeds the `onboarding_duration` computation at the top of
`calculate_costs_over_time`: `math.ceil(total_units / units_per_month)`
when `units_per_month > 0`, else 0. -/
def onboardingDuration (total_units units_per_month : Int) : Int :=
  if 0 < units_per_month then ⌈(total_units : ℚ) / (units_per_month : ℚ)⌉ else 0

/-- The onboarding loop of `calculate_costs_over_time`, one cell per
remaining month: if `current < total_units`, add
`min(units_per_month, total_units - current)`; append the (possibly
updated) `current`. -/
def monthlyUnitsAux (total_units units_per_month current : Int) : ℕ → List Int
  | 0 => []
  | n + 1 =>
    let c :=
      if current < total_units then
        current + min units_per_month (total_units - current)
      else current
    c :: monthlyUnitsAux total_units units_per_month c n

/-- The `monthly_units` list: the loop run for months
`1 .. contract_months` starting from `current_units = 0`. -/
def monthlyUnitsList (total_units : Int) (contract_months : ℕ)
    (units_per_month : Int) : List Int :=
  monthlyUnitsAux total_units units_per_month 0 contract_months

/-- Running cumulative sum with accumulator, the semantics of pandas
`.cumsum()` on a column. -/
def cumsumFrom (acc : Int) : List Int → List Int
  | [] => []
  | x :: xs => (acc + x) :: cumsumFrom (acc + x) xs

/-- pandas `.cumsum()`: partial sums, same length as the input. -/
def cumsum (l : List Int) : List Int := cumsumFrom 0 l

/-- The DataFrame built by `calculate_costs_over_time`: the
onboarded-units column, one cost column per model, and the three
cumulative columns. -/
structure CostTable where
  monthly_units : List Int
  costs_pp_unit : List Int
  costs_scheduled_flat : List Int
  costs_single_flat : List Int
  cum_pp_unit : List Int
  cum_scheduled_flat : List Int
  cum_single_flat : List Int
deriving DecidableEq, Repr

/-- Embeds `calculate_costs_over_time(...) -> (df, onboarding_duration)`. -/
def calculate_costs_over_time (total_units : Int) (contract_months : ℕ)
    (units_per_month price_per_unit single_flat_monthly_fee : Int)
    (scheduled_fee_tiers : List Tier) (enable_scheduled_fee : Bool) :
    CostTable × Int :=
  let onboarding_duration := onboardingDuration total_units units_per_month
  let monthly_units := monthlyUnitsList total_units contract_months units_per_month
  let costs_pp_unit := monthly_units.map (fun u => price_per_unit * u)
  let costs_single_flat := List.replicate contract_months single_flat_monthly_fee
  let costs_scheduled_flat :=
    if enable_scheduled_fee then
      (List.range contract_months).map
        (fun i : ℕ => get_fee_for_month ((i : Int) + 1) scheduled_fee_tiers)
    else List.replicate contract_months 0
  (⟨monthly_units, costs_pp_unit, costs_scheduled_flat, costs_single_flat,
    cumsum costs_pp_unit, cumsum costs_scheduled_flat, cumsum costs_single_flat⟩,
   onboarding_duration)

/-- Module line `total_unit_months = cost_df[...Onboarded...].sum()`. -/
def total_unit_months (t : CostTable) : Int := t.monthly_units.sum

/-- Module line `tco_pp_unit = cost_df[pp_unit_label].sum()`. -/
def tco_pp_unit (t : CostTable) : Int := t.costs_pp_unit.sum

/-- Module line `tco_scheduled = cost_df['Scheduled Flat Fee'].sum()`. -/
def tco_scheduled (t : CostTable) : Int := t.costs_scheduled_flat.sum

/-- Module line `single_flat_fee_tco = single_flat_monthly_fee * contract_months`. -/
def single_flat_fee_tco (single_flat_monthly_fee : Int) (contract_months : ℕ) : Int :=
  single_flat_monthly_fee * (contract_months : Int)

/-- The effective per-unit prices emitted by Chart 3
(`avg_price_pp_unit, avg_price_scheduled, avg_price_single_flat`):
the guarded branch on `total_unit_months > 0`, with the fallback
`(price_per_unit, 0, 0)`. -/
def avg_prices (t : CostTable) (price_per_unit single_flat_tco : Int)
    (enable_scheduled_fee : Bool) : ℚ × ℚ × ℚ :=
  let tum := total_unit_months t
  if 0 < tum then
    ((price_per_unit : ℚ),
     if enable_scheduled_fee then (tco_scheduled t : ℚ) / (tum : ℚ) else 0,
     (single_flat_tco : ℚ) / (tum : ℚ))
  else ((price_per_unit : ℚ), 0, 0)

/-- One savings annotation of Chart 1: Python
`if tcoB > tcoA > 0: saving = ((tcoB - tcoA) / tcoB) * 100` emitted,
otherwise nothing. -/
def savings_percent (tcoA tcoB : Int) : Option ℚ :=
  if tcoA < tcoB ∧ 0 < tcoA then
    some ((((tcoB - tcoA : Int)) : ℚ) / (tcoB : ℚ) * 100)
  else none

/-- The savings annotations Chart 1 emits, in source order: three
pairwise comparisons when the scheduled model is enabled, one
otherwise. -/
def chart1_savings (enable_scheduled_fee : Bool)
    (tcoPP tcoSched tcoSingle : Int) : List (Option ℚ) :=
  if enable_scheduled_fee then
    [savings_percent tcoSched tcoPP,
     savings_percent tcoSingle tcoSched,
     savings_percent tcoSingle tcoPP]
  else
    [savings_percent tcoSingle tcoPP]

/-- Module line `pp_unit_label = f"Pay-Per-{unit_of_measure}"`. -/
def pp_unit_label (unit_of_measure : String) : String :=
  "Pay-Per-" ++ unit_of_measure

/-- Module lines building `models_to_plot`: the pay-per-unit and single
flat fee models always, the scheduled model appended only when
enabled. -/
def models_to_plot (lbl : String) (enable_scheduled_fee : Bool) : List String :=
  if enable_scheduled_fee then [lbl, "Single Flat Fee", "Scheduled Flat Fee"]
  else [lbl, "Single Flat Fee"]

/-! ### Lemmas about the tier sort and scan -/

/-- Unfolding lemma for `feeScan` on a cons cell. -/
theorem feeScan_cons (month : Int) (p : Tier) (l : List Tier) :
    feeScan month (p :: l) = if p.1 ≤ month then p.2 else feeScan month l := by
  rcases p with ⟨tm, tf⟩
  rfl

/-- Membership in an insertion step is membership in the inputs. -/
theorem mem_insertTierDesc {q p : Tier} {l : List Tier} :
    q ∈ insertTierDesc p l ↔ q = p ∨ q ∈ l := by
  induction l with
  | nil => simp [insertTierDesc]
  | cons a as ih =>
    simp only [insertTierDesc]
    split
    · simp [List.mem_cons]
    · simp only [List.mem_cons, ih]
      tauto

/-- The sort keeps exactly the tiers of the input list. -/
theorem mem_sortTiersDesc {q : Tier} {l : List Tier} :
    q ∈ sortTiersDesc l ↔ q ∈ l := by
  induction l with
  | nil => simp [sortTiersDesc]
  | cons a as ih =>
    simp only [sortTiersDesc, mem_insertTierDesc, List.mem_cons, ih]

/-- Inserting preserves the descending-start-month invariant. -/
theorem pairwise_insertTierDesc {p : Tier} {l : List Tier}
    (h : l.Pairwise (fun a b => b.1 ≤ a.1)) :
    (insertTierDesc p l).Pairwise (fun a b => b.1 ≤ a.1) := by
  induction l with
  | nil => simp [insertTierDesc]
  | cons a as ih =>
    rw [List.pairwise_cons] at h
    obtain ⟨ha, has⟩ := h
    simp only [insertTierDesc]
    split
    · rename_i hle
      refine List.pairwise_cons.mpr ⟨?_, List.pairwise_cons.mpr ⟨ha, has⟩⟩
      intro x hx
      rcases List.mem_cons.mp hx with rfl | hx
      · exact hle
      · exact le_trans (ha x hx) hle
    · rename_i hgt
      refine List.pairwise_cons.mpr ⟨?_, ih has⟩
      intro x hx
      rcases mem_insertTierDesc.mp hx with rfl | hx
      · exact le_of_lt (lt_of_not_le hgt)
      · exact ha x hx

/-- The sorted tier list is in descending start-month order. -/
theorem pairwise_sortTiersDesc (l : List Tier) :
    (sortTiersDesc l).Pairwise (fun a b => b.1 ≤ a.1) := by
  induction l with
  | nil => simp [sortTiersDesc]
  | cons a as ih => exact pairwise_insertTierDesc ih

/-- When every tier starts after the month, the scan falls through to 0. -/
theorem feeScan_eq_zero {month : Int} {l : List Tier}
    (h : ∀ p ∈ l, month < p.1) : feeScan month l = 0 := by
  induction l with
  | nil => rfl
  | cons a as ih =>
    rw [feeScan_cons, if_neg (not_le.mpr (h a (List.mem_cons_self a as)))]
    exact ih fun p hp => h p (List.mem_cons_of_mem a hp)

/-- On a descending list with distinct start months, the scan returns the
fee of the qualifying tier with the largest start month. -/
theorem feeScan_eq_max {month : Int} {l : List Tier} {p : Tier}
    (hsorted : l.Pairwise (fun a b => b.1 ≤ a.1))
    (hinj : ∀ a ∈ l, ∀ b ∈ l, a.1 = b.1 → a = b)
    (hmem : p ∈ l) (hle : p.1 ≤ month)
    (hmax : ∀ q ∈ l, q.1 ≤ month → q.1 ≤ p.1) :
    feeScan month l = p.2 := by
  induction l with
  | nil => exact absurd hmem (List.not_mem_nil p)
  | cons a as ih =>
    rw [List.pairwise_cons] at hsorted
    obtain ⟨ha, has⟩ := hsorted
    rw [feeScan_cons]
    by_cases hc : a.1 ≤ month
    · rw [if_pos hc]
      have hap : a.1 ≤ p.1 := hmax a (List.mem_cons_self a as) hc
      rcases List.mem_cons.mp hmem with rfl | hmem'
      · rfl
      · have hpa : p.1 ≤ a.1 := ha p hmem'
        have : p = a :=
          hinj p (List.mem_cons_of_mem a hmem') a (List.mem_cons_self a as)
            (le_antisymm hpa hap)
        rw [this]
    · rw [if_neg hc]
      have hpa : p ≠ a := by
        intro heq
        exact hc (heq ▸ hle)
      have hmem' : p ∈ as := (List.mem_cons.mp hmem).resolve_left hpa
      exact ih has
        (fun x hx y hy hxy =>
          hinj x (List.mem_cons_of_mem a hx) y (List.mem_cons_of_mem a hy) hxy)
        hmem'
        (fun q hq hqm => hmax q (List.mem_cons_of_mem a hq) hqm)

/-! ### Closed form of the onboarding ramp -/

/-- One loop iteration, given a clamped current count and a nonnegative
rate, moves the count to `min (current + rate) total`. -/
theorem onboard_step_eq (total upm c : Int) (hupm : 0 ≤ upm) (hc : c ≤ total) :
    (if c < total then c + min upm (total - c) else c) = min (c + upm) total := by
  split <;> omega

/-- Closed form of the onboarding loop: starting from a clamped count
`c`, the cell for the k-th remaining month is `min (c + (k+1)·rate) total`. -/
theorem monthlyUnitsAux_eq_map (total upm : Int) (hupm : 0 ≤ upm) :
    ∀ (n : ℕ) (c : Int), c ≤ total →
      monthlyUnitsAux total upm c n =
        (List.range n).map fun k : ℕ => min (c + ((k : Int) + 1) * upm) total := by
  intro n
  induction n with
  | zero => intro c hc; simp [monthlyUnitsAux]
  | succ n ih =>
    intro c hc
    simp only [monthlyUnitsAux]
    rw [onboard_step_eq total upm c hupm hc]
    have hc' : min (c + upm) total ≤ total := min_le_right _ _
    rw [ih (min (c + upm) total) hc']
    rw [List.range_succ_eq_map, List.map_cons, List.map_map]
    refine congrArg₂ _ (by norm_num) ?_
    refine List.map_congr_left fun k _ => ?_
    have hd : (0 : Int) ≤ ((k : Int) + 1) * upm :=
      mul_nonneg (by positivity) hupm
    have key : min (min (c + upm) total + ((k : Int) + 1) * upm) total
        = min (c + upm + ((k : Int) + 1) * upm) total := by omega
    simp only [Function.comp_apply]
    rw [key]
    push_cast
    ring_nf

/-- Closed form of the `monthly_units` column: the entry for month
`k + 1` (0-indexed `k`) is `min ((k+1)·rate) total`. -/
theorem monthlyUnitsList_eq_map (total : Int) (cm : ℕ) (upm : Int)
    (hupm : 0 ≤ upm) (htotal : 0 ≤ total) :
    monthlyUnitsList total cm upm =
      (List.range cm).map fun k : ℕ => min (((k : Int) + 1) * upm) total := by
  unfold monthlyUnitsList
  rw [monthlyUnitsAux_eq_map total upm hupm cm 0 htotal]
  simp

/-- The onboarding loop emits one cell per month. -/
theorem monthlyUnitsAux_length (total upm : Int) :
    ∀ (n : ℕ) (c : Int), (monthlyUnitsAux total upm c n).length = n := by
  intro n
  induction n with
  | zero => intro c; rfl
  | succ n ih => intro c; simp only [monthlyUnitsAux, List.length_cons, ih]

/-! ### Lemmas about the cumulative-sum column -/

/-- The cumulative column has the length of its cost column. -/
theorem cumsumFrom_length (l : List Int) :
    ∀ acc : Int, (cumsumFrom acc l).length = l.length := by
  induction l with
  | nil => intro acc; rfl
  | cons x xs ih =>
    intro acc
    simp only [cumsumFrom, List.length_cons, ih]

/-- Entry `i` of the accumulated column is the accumulator plus the sum
of the first `i + 1` cost cells. -/
theorem cumsumFrom_getD (l : List Int) :
    ∀ (i : ℕ) (acc : Int), i < l.length →
      (cumsumFrom acc l).getD i 0 = acc + (l.take (i + 1)).sum := by
  induction l with
  | nil => intro i acc h; exact absurd h (by simp)
  | cons x xs ih =>
    intro i acc h
    cases i with
    | zero => simp [cumsumFrom]
    | succ i =>
      simp only [cumsumFrom, List.getD_cons_succ, List.take_succ_cons,
        List.sum_cons]
      rw [ih i (acc + x) (by simpa using h)]
      ring

/-- Entry `i` of pandas `.cumsum()` is the sum of the first `i + 1`
cells. -/
theorem cumsum_getD (l : List Int) (i : ℕ) (h : i < l.length) :
    (cumsum l).getD i 0 = (l.take (i + 1)).sum := by
  unfold cumsum
  rw [cumsumFrom_getD l i 0 h, zero_add]

/-- The length of pandas `.cumsum()` output. -/
theorem cumsum_length (l : List Int) : (cumsum l).length = l.length :=
  cumsumFrom_length l 0

/-- First cumulative entry equals the first cost entry. -/
theorem cumsum_head (l : List Int) (h : 0 < l.length) :
    (cumsum l).getD 0 0 = l.getD 0 0 := by
  rcases l with _ | ⟨x, xs⟩
  · exact absurd h (by simp)
  · rw [cumsum_getD (x :: xs) 0 (by simp)]
    simp

/-- Each later cumulative entry is the previous one plus that month's
cost. -/
theorem cumsum_step (l : List Int) (i : ℕ) (h : i + 1 < l.length) :
    (cumsum l).getD (i + 1) 0 = (cumsum l).getD i 0 + l.getD (i + 1) 0 := by
  rw [cumsum_getD l (i + 1) h, cumsum_getD l i (Nat.lt_of_succ_lt h),
    List.take_succ, List.sum_append]
  congr 1
  rw [List.getElem?_eq_getElem h]
  simp [List.getD_eq_getElem?_getD, List.getElem?_eq_getElem h]

/-- Accumulating an all-zero column keeps the accumulator constant. -/
theorem cumsumFrom_replicate_zero (n : ℕ) :
    ∀ acc : Int, cumsumFrom acc (List.replicate n 0) = List.replicate n acc := by
  induction n with
  | zero => intro acc; rfl
  | succ n ih =>
    intro acc
    simp only [List.replicate_succ, cumsumFrom, add_zero, ih]

/-- The cumulative column of an all-zero cost column is all zeros. -/
theorem cumsum_replicate_zero (n : ℕ) :
    cumsum (List.replicate n 0) = List.replicate n 0 :=
  cumsumFrom_replicate_zero n 0

/-! ### Projections of `calculate_costs_over_time` -/

/-- The onboarded-units column of the returned table. -/
theorem calcT_monthly_units (total : Int) (cm : ℕ) (upm ppu sf : Int)
    (tiers : List Tier) (en : Bool) :
    (calculate_costs_over_time total cm upm ppu sf tiers en).1.monthly_units
      = monthlyUnitsList total cm upm := rfl

/-- The pay-per-unit cost column of the returned table. -/
theorem calcT_costs_pp_unit (total : Int) (cm : ℕ) (upm ppu sf : Int)
    (tiers : List Tier) (en : Bool) :
    (calculate_costs_over_time total cm upm ppu sf tiers en).1.costs_pp_unit
      = (monthlyUnitsList total cm upm).map (fun u => ppu * u) := rfl

/-- The scheduled-fee cost column of the returned table. -/
theorem calcT_costs_scheduled (total : Int) (cm : ℕ) (upm ppu sf : Int)
    (tiers : List Tier) (en : Bool) :
    (calculate_costs_over_time total cm upm ppu sf tiers en).1.costs_scheduled_flat
      = if en then
          (List.range cm).map (fun i : ℕ => get_fee_for_month ((i : Int) + 1) tiers)
        else List.replicate cm 0 := rfl

/-- The single-flat-fee cost column of the returned table. -/
theorem calcT_costs_single (total : Int) (cm : ℕ) (upm ppu sf : Int)
    (tiers : List Tier) (en : Bool) :
    (calculate_costs_over_time total cm upm ppu sf tiers en).1.costs_single_flat
      = List.replicate cm sf := rfl

/-- The cumulative pay-per-unit column of the returned table. -/
theorem calcT_cum_pp_unit (total : Int) (cm : ℕ) (upm ppu sf : Int)
    (tiers : List Tier) (en : Bool) :
    (calculate_costs_over_time total cm upm ppu sf tiers en).1.cum_pp_unit
      = cumsum ((calculate_costs_over_time total cm upm ppu sf tiers en).1.costs_pp_unit) := rfl

/-- The cumulative scheduled-fee column of the returned table. -/
theorem calcT_cum_scheduled (total : Int) (cm : ℕ) (upm ppu sf : Int)
    (tiers : List Tier) (en : Bool) :
    (calculate_costs_over_time total cm upm ppu sf tiers en).1.cum_scheduled_flat
      = cumsum ((calculate_costs_over_time total cm upm ppu sf tiers en).1.costs_scheduled_flat) := rfl

/-- The cumulative single-flat-fee column of the returned table. -/
theorem calcT_cum_single (total : Int) (cm : ℕ) (upm ppu sf : Int)
    (tiers : List Tier) (en : Bool) :
    (calculate_costs_over_time total cm upm ppu sf tiers en).1.cum_single_flat
      = cumsum ((calculate_costs_over_time total cm upm ppu sf tiers en).1.costs_single_flat) := rfl

/-- The second component of the returned pair is the closed-form
duration. -/
theorem calcT_duration (total : Int) (cm : ℕ) (upm ppu sf : Int)
    (tiers : List Tier) (en : Bool) :
    (calculate_costs_over_time total cm upm ppu sf tiers en).2
      = onboardingDuration total upm := rfl

/-- Entry `j` of the closed-form onboarded-units column. -/
theorem monthlyUnitsList_getD (total : Int) (cm : ℕ) (upm : Int)
    (hupm : 0 ≤ upm) (htotal : 0 ≤ total) (j : ℕ) (hj : j < cm) :
    (monthlyUnitsList total cm upm).getD j 0
      = min (((j : Int) + 1) * upm) total := by
  rw [monthlyUnitsList_eq_map total cm upm hupm htotal,
    List.getD_eq_getElem?_getD, List.getElem?_map, List.getElem?_range hj]
  rfl

/-- Under a valid configuration every onboarded-units cell is at
least 1, so the unit-month total is positive. -/
theorem unit_month_sum_pos (total : Int) (cm : ℕ) (upm : Int)
    (htotal : 1 ≤ total) (hcm : 1 ≤ cm) (hupm : 1 ≤ upm) :
    0 < (monthlyUnitsList total cm upm).sum := by
  rw [monthlyUnitsList_eq_map total cm upm (by omega) (by omega)]
  apply List.sum_pos
  · intro x hx
    obtain ⟨k, _, rfl⟩ := List.mem_map.mp hx
    have hk1 : (0 : Int) < ((k : Int) + 1) * upm :=
      mul_pos (by positivity) (by omega)
    exact lt_min hk1 (by omega)
  · intro hnil
    have := congrArg List.length hnil
    simp at this
    omega

/-! ### Claim theorems -/

/-- C1: `get_fee_for_month` returns the fee of the tier with the
largest start month that is ≤ the given month, returns 0 when the
month precedes every tier's start month, and on the tiers
{1: 1000, 6: 2000, 12: 3000} yields 1000 at months 1 and 5, 2000 at
months 6 and 11, 3000 at month 12, and 0 at month 0. -/
theorem C1_tier_fee_resolution :
    (∀ (month : Int) (tiers : List Tier),
        (∀ a ∈ tiers, ∀ b ∈ tiers, a.1 = b.1 → a = b) →
        ((∀ p ∈ tiers, month < p.1) → get_fee_for_month month tiers = 0) ∧
        (∀ p ∈ tiers, p.1 ≤ month →
          (∀ q ∈ tiers, q.1 ≤ month → q.1 ≤ p.1) →
          get_fee_for_month month tiers = p.2)) ∧
    get_fee_for_month 1 [(1, 1000), (6, 2000), (12, 3000)] = 1000 ∧
    get_fee_for_month 5 [(1, 1000), (6, 2000), (12, 3000)] = 1000 ∧
    get_fee_for_month 6 [(1, 1000), (6, 2000), (12, 3000)] = 2000 ∧
    get_fee_for_month 11 [(1, 1000), (6, 2000), (12, 3000)] = 2000 ∧
    get_fee_for_month 12 [(1, 1000), (6, 2000), (12, 3000)] = 3000 ∧
    get_fee_for_month 0 [(1, 1000), (6, 2000), (12, 3000)] = 0 := by
  refine ⟨?_, by decide, by decide, by decide, by decide, by decide, by decide⟩
  intro month tiers hinj
  constructor
  · intro hall
    unfold get_fee_for_month
    exact feeScan_eq_zero fun p hp => hall p (mem_sortTiersDesc.mp hp)
  · intro p hp hple hmax
    unfold get_fee_for_month
    exact feeScan_eq_max (pairwise_sortTiersDesc tiers)
      (fun a ha b hb => hinj a (mem_sortTiersDesc.mp ha) b (mem_sortTiersDesc.mp hb))
      (mem_sortTiersDesc.mpr hp) hple
      (fun q hq => hmax q (mem_sortTiersDesc.mp hq))

/-- Witness for C1 at month 7 and the example tiers: the qualifying
tier with the largest start month is (6, 2000). -/
theorem C1_tier_fee_resolution_witness :
    get_fee_for_month 7 [(1, 1000), (6, 2000), (12, 3000)] = 2000 :=
  (C1_tier_fee_resolution.1 7 [(1, 1000), (6, 2000), (12, 3000)]
      (by decide)).2 (6, 2000) (by decide) (by decide) (by decide)

/-- C2: under a valid configuration the last entry of the onboarding
series equals `min totalUnits (unitsPerMonth * contractMonths)`. -/
theorem C2_series_saturation (total : Int) (cm : ℕ) (upm ppu sf : Int)
    (tiers : List Tier) (en : Bool)
    (htotal : 1 ≤ total) (hcm : 1 ≤ cm) (hupm : 1 ≤ upm) :
    ((calculate_costs_over_time total cm upm ppu sf tiers en).1.monthly_units).getLast?
      = some (min total (upm * (cm : Int))) := by
  rw [calcT_monthly_units,
    monthlyUnitsList_eq_map total cm upm (by omega) (by omega),
    List.getLast?_eq_getElem?]
  simp only [List.length_map, List.length_range]
  rw [List.getElem?_map, List.getElem?_range (by omega : cm - 1 < cm)]
  have hx : ((cm - 1 : ℕ) : Int) + 1 = (cm : Int) := by omega
  simp only [Option.map_some']
  rw [hx, min_comm, mul_comm]

/-- Witness for C2 at the end-to-end scenario 50 units, 48 months,
5 per month. -/
theorem C2_series_saturation_witness :
    ((calculate_costs_over_time 50 48 5 1000 35000 [] true).1.monthly_units).getLast?
      = some (min 50 (5 * ((48 : ℕ) : Int))) :=
  C2_series_saturation 50 48 5 1000 35000 [] true (by decide) (by decide) (by decide)

/-- C3: under a valid configuration the onboarding series is
monotonically non-decreasing between consecutive months and every
entry is bounded by the total unit count. -/
theorem C3_series_monotone_bounded (total : Int) (cm : ℕ) (upm ppu sf : Int)
    (tiers : List Tier) (en : Bool)
    (htotal : 1 ≤ total) (hcm : 1 ≤ cm) (hupm : 1 ≤ upm) :
    (∀ i : ℕ, i + 1 < cm →
      ((calculate_costs_over_time total cm upm ppu sf tiers en).1.monthly_units).getD i 0 ≤
        ((calculate_costs_over_time total cm upm ppu sf tiers en).1.monthly_units).getD (i + 1) 0) ∧
    (∀ x ∈ (calculate_costs_over_time total cm upm ppu sf tiers en).1.monthly_units,
      x ≤ total) := by
  rw [calcT_monthly_units]
  constructor
  · intro i hi
    rw [monthlyUnitsList_getD total cm upm (by omega) (by omega) i (by omega),
      monthlyUnitsList_getD total cm upm (by omega) (by omega) (i + 1) hi]
    have hmul : ((i : Int) + 1) * upm ≤ (((i + 1 : ℕ) : Int) + 1) * upm := by
      apply mul_le_mul_of_nonneg_right _ (by omega : (0 : Int) ≤ upm)
      push_cast
      omega
    exact min_le_min hmul (le_refl total)
  · intro x hx
    rw [monthlyUnitsList_eq_map total cm upm (by omega) (by omega)] at hx
    obtain ⟨k, _, rfl⟩ := List.mem_map.mp hx
    exact min_le_right _ _

/-- Witness for C3 at the end-to-end scenario: months 1 and 2 of the
series are ordered, and month 1's entry is at most 50. -/
theorem C3_series_monotone_bounded_witness :
    ((calculate_costs_over_time 50 48 5 1000 35000 [] true).1.monthly_units).getD 0 0 ≤
      ((calculate_costs_over_time 50 48 5 1000 35000 [] true).1.monthly_units).getD 1 0 :=
  (C3_series_monotone_bounded 50 48 5 1000 35000 [] true
      (by decide) (by decide) (by decide)).1 0 (by decide)

/-- A cumulative column is consistent with its cost column over a
contract of `cm` months: the first entries agree and each later entry
adds that month's cost. -/
def cumColumnOk (cost cumulative : List Int) (cm : ℕ) : Prop :=
  cumulative.getD 0 0 = cost.getD 0 0 ∧
  ∀ m : ℕ, m + 1 < cm →
    cumulative.getD (m + 1) 0 = cumulative.getD m 0 + cost.getD (m + 1) 0

/-- pandas `.cumsum()` output is consistent with its input column. -/
theorem cumsum_column_ok (cost : List Int) (cm : ℕ) (hlen : cost.length = cm) :
    cumColumnOk cost (cumsum cost) cm := by
  constructor
  · rcases cost with _ | ⟨x, xs⟩
    · rfl
    · exact cumsum_head (x :: xs) (by simp)
  · intro m hm
    exact cumsum_step cost m (by omega)

/-- The cost columns all have one cell per contract month. -/
theorem calcT_column_lengths (total : Int) (cm : ℕ) (upm ppu sf : Int)
    (tiers : List Tier) (en : Bool) :
    ((calculate_costs_over_time total cm upm ppu sf tiers en).1.costs_pp_unit).length = cm ∧
    ((calculate_costs_over_time total cm upm ppu sf tiers en).1.costs_scheduled_flat).length = cm ∧
    ((calculate_costs_over_time total cm upm ppu sf tiers en).1.costs_single_flat).length = cm := by
  refine ⟨?_, ?_, ?_⟩
  · rw [calcT_costs_pp_unit]
    simp [monthlyUnitsList, monthlyUnitsAux_length]
  · rw [calcT_costs_scheduled]
    split
    · rw [List.length_map, List.length_range]
    · rw [List.length_replicate]
  · rw [calcT_costs_single]
    simp

/-- C4: under a valid configuration each of the three cumulative
columns satisfies `cumulative[1] = cost[1]` and
`cumulative[m] = cumulative[m-1] + cost[m]` for later months
(0-indexed here: entry 0 agrees, and entry `m+1` adds cost `m+1`). -/
theorem C4_cumulative_consistency (total : Int) (cm : ℕ) (upm ppu sf : Int)
    (tiers : List Tier) (en : Bool)
    (htotal : 1 ≤ total) (hcm : 1 ≤ cm) (hupm : 1 ≤ upm) :
    cumColumnOk ((calculate_costs_over_time total cm upm ppu sf tiers en).1.costs_pp_unit)
      ((calculate_costs_over_time total cm upm ppu sf tiers en).1.cum_pp_unit) cm ∧
    cumColumnOk ((calculate_costs_over_time total cm upm ppu sf tiers en).1.costs_scheduled_flat)
      ((calculate_costs_over_time total cm upm ppu sf tiers en).1.cum_scheduled_flat) cm ∧
    cumColumnOk ((calculate_costs_over_time total cm upm ppu sf tiers en).1.costs_single_flat)
      ((calculate_costs_over_time total cm upm ppu sf tiers en).1.cum_single_flat) cm := by
  obtain ⟨h1, h2, h3⟩ := calcT_column_lengths total cm upm ppu sf tiers en
  exact ⟨calcT_cum_pp_unit total cm upm ppu sf tiers en ▸ cumsum_column_ok _ cm h1,
    calcT_cum_scheduled total cm upm ppu sf tiers en ▸ cumsum_column_ok _ cm h2,
    calcT_cum_single total cm upm ppu sf tiers en ▸ cumsum_column_ok _ cm h3⟩

/-- Witness for C4: at the end-to-end scenario, cumulative
pay-per-unit entry 1 is entry 0 plus the month-2 cost. -/
theorem C4_cumulative_consistency_witness :
    ((calculate_costs_over_time 50 48 5 1000 35000 [] true).1.cum_pp_unit).getD 1 0
      = ((calculate_costs_over_time 50 48 5 1000 35000 [] true).1.cum_pp_unit).getD 0 0
        + ((calculate_costs_over_time 50 48 5 1000 35000 [] true).1.costs_pp_unit).getD 1 0 :=
  (C4_cumulative_consistency 50 48 5 1000 35000 [] true
      (by decide) (by decide) (by decide)).1.2 0 (by decide)

/-- C5: with a positive onboarding rate the returned duration is the
ceiling of `totalUnits / unitsPerMonth` (a closed form not derived
from the series), and it is 10 for 50 units at 5 per month. -/
theorem C5_onboarding_duration (total : Int) (cm : ℕ) (upm ppu sf : Int)
    (tiers : List Tier) (en : Bool) (hupm : 1 ≤ upm) :
    (calculate_costs_over_time total cm upm ppu sf tiers en).2
      = ⌈(total : ℚ) / (upm : ℚ)⌉ ∧
    (calculate_costs_over_time 50 48 5 1000 35000 [] true).2 = 10 := by
  constructor
  · rw [calcT_duration]
    unfold onboardingDuration
    rw [if_pos (by omega : (0 : Int) < upm)]
  · rw [calcT_duration]
    unfold onboardingDuration
    norm_num

/-- Witness for C5 at the end-to-end scenario. -/
theorem C5_onboarding_duration_witness :
    (calculate_costs_over_time 50 48 5 1000 35000 [] true).2
      = ⌈((50 : Int) : ℚ) / (((5 : Int)) : ℚ)⌉ :=
  (C5_onboarding_duration 50 48 5 1000 35000 [] true (by decide)).1

/-- Counterexample to C6 as stated: with `unitsPerMonth = -1` (which
satisfies `unitsPerMonth ≤ 0`), the duration is 0 but the onboarding
series is `[-1]`, not all zeros — the loop adds the negative rate. -/
theorem C6_counterexample :
    ¬ ((calculate_costs_over_time 1 1 (-1) 1000 35000 [] true).2 = 0 ∧
       ∀ x ∈ (calculate_costs_over_time 1 1 (-1) 1000 35000 [] true).1.monthly_units,
         x = 0) := by
  decide

/-- C6 (amended): for `unitsPerMonth ≤ 0` the returned duration is 0,
and when `unitsPerMonth = 0` the onboarding series is 0 at every
month; for a strictly negative rate the series is not all zeros. -/
theorem C6_amended_nonpositive_rate (total : Int) (cm : ℕ) (upm ppu sf : Int)
    (tiers : List Tier) (en : Bool)
    (htotal : 1 ≤ total) (hcm : 1 ≤ cm) (hupm : upm ≤ 0) :
    (calculate_costs_over_time total cm upm ppu sf tiers en).2 = 0 ∧
    (upm = 0 →
      ∀ x ∈ (calculate_costs_over_time total cm upm ppu sf tiers en).1.monthly_units,
        x = 0) := by
  constructor
  · rw [calcT_duration]
    unfold onboardingDuration
    rw [if_neg (by omega)]
  · rintro rfl x hx
    rw [calcT_monthly_units,
      monthlyUnitsList_eq_map total cm 0 le_rfl (by omega)] at hx
    obtain ⟨k, _, rfl⟩ := List.mem_map.mp hx
    simp only [mul_zero]
    omega

/-- Witness for C6 (amended) at a zero onboarding rate. -/
theorem C6_amended_nonpositive_rate_witness :
    (calculate_costs_over_time 5 3 0 1000 35000 [] true).2 = 0 ∧
    ((0 : Int) = 0 →
      ∀ x ∈ (calculate_costs_over_time 5 3 0 1000 35000 [] true).1.monthly_units,
        x = 0) :=
  C6_amended_nonpositive_rate 5 3 0 1000 35000 [] true
    (by decide) (by decide) (by decide)

/-- Multiplying a column by a constant multiplies its sum. -/
theorem sum_map_mul_const (a : Int) (l : List Int) :
    (l.map (fun x => a * x)).sum = a * l.sum := by
  induction l with
  | nil => simp
  | cons x xs ih =>
    simp only [List.map_cons, List.sum_cons, ih]
    ring

/-- Counterexample to C7's zero-unit-month clause: when the unit-month
sum is 0 the fallback branch emits the raw `price_per_unit` (here
1000), not 0, for the Pay-Per-Unit model. -/
theorem C7_counterexample :
    total_unit_months (calculate_costs_over_time 1 1 0 1000 35000 [] true).1 = 0 ∧
    (avg_prices (calculate_costs_over_time 1 1 0 1000 35000 [] true).1 1000
        (single_flat_fee_tco 35000 1) true).1 ≠ 0 := by
  decide

/-- C7 (amended): under a valid configuration the unit-month sum is
positive and each emitted effective price equals that model's column
TCO divided by the unit-month sum (the emitted Pay-Per-Unit value is
the raw `price_per_unit`, which equals `tco_pp_unit / total_unit_months`);
when the unit-month sum is 0 the code emits 0 for the scheduled and
single-flat models but the raw `price_per_unit` for Pay-Per-Unit. -/
theorem C7_amended_effective_prices (total : Int) (cm : ℕ) (upm ppu sf : Int)
    (tiers : List Tier) (en : Bool)
    (htotal : 1 ≤ total) (hcm : 1 ≤ cm) (hupm : 1 ≤ upm) :
    0 < total_unit_months (calculate_costs_over_time total cm upm ppu sf tiers en).1 ∧
    (avg_prices (calculate_costs_over_time total cm upm ppu sf tiers en).1 ppu
        (single_flat_fee_tco sf cm) en).1
      = (tco_pp_unit (calculate_costs_over_time total cm upm ppu sf tiers en).1 : ℚ)
        / (total_unit_months (calculate_costs_over_time total cm upm ppu sf tiers en).1 : ℚ) ∧
    (avg_prices (calculate_costs_over_time total cm upm ppu sf tiers en).1 ppu
        (single_flat_fee_tco sf cm) en).2.1
      = (tco_scheduled (calculate_costs_over_time total cm upm ppu sf tiers en).1 : ℚ)
        / (total_unit_months (calculate_costs_over_time total cm upm ppu sf tiers en).1 : ℚ) ∧
    (avg_prices (calculate_costs_over_time total cm upm ppu sf tiers en).1 ppu
        (single_flat_fee_tco sf cm) en).2.2
      = (((calculate_costs_over_time total cm upm ppu sf tiers en).1.costs_single_flat).sum : ℚ)
        / (total_unit_months (calculate_costs_over_time total cm upm ppu sf tiers en).1 : ℚ) ∧
    (∀ (t2 : CostTable) (p2 s2 : Int) (e2 : Bool),
      total_unit_months t2 = 0 → avg_prices t2 p2 s2 e2 = ((p2 : ℚ), 0, 0)) := by
  have e1 : total_unit_months (calculate_costs_over_time total cm upm ppu sf tiers en).1
      = (monthlyUnitsList total cm upm).sum := rfl
  have htum : 0 < total_unit_months (calculate_costs_over_time total cm upm ppu sf tiers en).1 := by
    rw [e1]
    exact unit_month_sum_pos total cm upm htotal hcm hupm
  have htumQ :
      ((total_unit_months (calculate_costs_over_time total cm upm ppu sf tiers en).1 : Int) : ℚ) ≠ 0 := by
    exact_mod_cast ne_of_gt htum
  refine ⟨htum, ?_, ?_, ?_, ?_⟩
  · simp only [avg_prices]
    rw [if_pos htum]
    have hpp : tco_pp_unit (calculate_costs_over_time total cm upm ppu sf tiers en).1
        = ppu * total_unit_months (calculate_costs_over_time total cm upm ppu sf tiers en).1 := by
      rw [e1]
      exact sum_map_mul_const ppu (monthlyUnitsList total cm upm)
    rw [hpp]
    push_cast
    rw [mul_div_assoc, div_self htumQ, mul_one]
  · simp only [avg_prices]
    rw [if_pos htum]
    cases en with
    | true => simp
    | false =>
      have hz : tco_scheduled (calculate_costs_over_time total cm upm ppu sf tiers false).1 = 0 := by
        show (List.replicate cm (0 : Int)).sum = 0
        simp
      rw [hz]
      simp
  · simp only [avg_prices]
    rw [if_pos htum]
    have hs : ((calculate_costs_over_time total cm upm ppu sf tiers en).1.costs_single_flat).sum
        = sf * (cm : Int) := by
      rw [calcT_costs_single]
      simp [mul_comm]
    rw [hs]
    rfl
  · intro t2 p2 s2 e2 h0
    simp only [avg_prices]
    rw [if_neg (by omega : ¬ 0 < total_unit_months t2)]

/-- Witness for C7 (amended) at the end-to-end scenario: the emitted
Pay-Per-Unit effective price equals its TCO over the unit-month sum. -/
theorem C7_amended_effective_prices_witness :
    (avg_prices (calculate_costs_over_time 50 48 5 1000 35000 [] true).1 1000
        (single_flat_fee_tco 35000 48) true).1
      = (tco_pp_unit (calculate_costs_over_time 50 48 5 1000 35000 [] true).1 : ℚ)
        / (total_unit_months (calculate_costs_over_time 50 48 5 1000 35000 [] true).1 : ℚ) :=
  (C7_amended_effective_prices 50 48 5 1000 35000 [] true
      (by decide) (by decide) (by decide)).2.1

/-- C8: a savings annotation is emitted exactly when
`TCO_B > TCO_A > 0`, in which case it is `(TCO_B − TCO_A)/TCO_B × 100`;
the single-flat scenario fee 35000 over 48 months has TCO 1,680,000,
and against a Pay-Per-Unit TCO it is reported exactly when that TCO
exceeds 1,680,000, with a positive value. -/
theorem C8_savings_guard_and_formula :
    (∀ a b : Int,
        ((savings_percent a b).isSome ↔ a < b ∧ 0 < a) ∧
        (a < b → 0 < a →
          savings_percent a b = some (((b : ℚ) - (a : ℚ)) / (b : ℚ) * 100))) ∧
    single_flat_fee_tco 35000 48 = 1680000 ∧
    (∀ tcoPP : Int,
        ((savings_percent 1680000 tcoPP).isSome ↔ 1680000 < tcoPP) ∧
        (1680000 < tcoPP →
          savings_percent 1680000 tcoPP
            = some (((tcoPP : ℚ) - 1680000) / (tcoPP : ℚ) * 100) ∧
          0 < ((tcoPP : ℚ) - 1680000) / (tcoPP : ℚ) * 100)) := by
  have hmain : ∀ a b : Int,
      ((savings_percent a b).isSome ↔ a < b ∧ 0 < a) ∧
      (a < b → 0 < a →
        savings_percent a b = some (((b : ℚ) - (a : ℚ)) / (b : ℚ) * 100)) := by
    intro a b
    constructor
    · unfold savings_percent
      split
      · rename_i h
        simpa using h
      · rename_i h
        simpa using h
    · intro h1 h2
      unfold savings_percent
      rw [if_pos ⟨h1, h2⟩]
      congr 1
      push_cast
      ring
  refine ⟨hmain, by decide, ?_⟩
  intro tp
  have hguard := (hmain 1680000 tp).1
  constructor
  · rw [hguard]
    constructor
    · rintro ⟨h, _⟩
      exact h
    · intro h
      exact ⟨h, by norm_num⟩
  · intro h
    have hval := (hmain 1680000 tp).2 h (by norm_num)
    have htpQ : (0 : ℚ) < (tp : ℚ) := by
      exact_mod_cast lt_trans (by norm_num : (0 : Int) < 1680000) h
    have hsub : (0 : ℚ) < (tp : ℚ) - 1680000 := by
      have : ((1680000 : Int) : ℚ) < (tp : ℚ) := by exact_mod_cast h
      push_cast at this
      linarith
    constructor
    · rw [hval]
      norm_num
    · exact mul_pos (div_pos hsub htpQ) (by norm_num)

/-- Witness for C8 with Pay-Per-Unit TCO 2,400,000 against the
single-flat TCO 1,680,000. -/
theorem C8_savings_guard_and_formula_witness :
    savings_percent 1680000 2400000
      = some ((((2400000 : Int) : ℚ) - ((1680000 : Int) : ℚ))
          / ((2400000 : Int) : ℚ) * 100) :=
  (C8_savings_guard_and_formula.1 1680000 2400000).2 (by decide) (by decide)

/-- C9: with the scheduled-fee model disabled its cost column and
cumulative column are all zeros, and 'Scheduled Flat Fee' is not among
the models used in comparisons, for every unit of measure the app
offers. -/
theorem C9_disabled_model_exclusion (total : Int) (cm : ℕ) (upm ppu sf : Int)
    (tiers : List Tier) (u : String)
    (hu : u ∈ ["Vessel", "Voyage", "MT Bunker"]) :
    (calculate_costs_over_time total cm upm ppu sf tiers false).1.costs_scheduled_flat
      = List.replicate cm 0 ∧
    (calculate_costs_over_time total cm upm ppu sf tiers false).1.cum_scheduled_flat
      = List.replicate cm 0 ∧
    "Scheduled Flat Fee" ∉ models_to_plot (pp_unit_label u) false := by
  refine ⟨rfl, ?_, ?_⟩
  · show cumsum (List.replicate cm 0) = List.replicate cm 0
    exact cumsum_replicate_zero cm
  · fin_cases hu <;> decide

/-- Witness for C9 with the Vessel unit of measure. -/
theorem C9_disabled_model_exclusion_witness :
    "Scheduled Flat Fee" ∉ models_to_plot (pp_unit_label "Vessel") false :=
  (C9_disabled_model_exclusion 50 48 5 1000 35000 [] "Vessel" (by decide)).2.2

/-- C10: under a valid configuration the unit-month sum over the table
is at least 1, so the effective-price divisions have a nonzero
denominator and the zero-unit-month fallback branch of the summary
computation is not taken. -/
theorem C10_unit_month_sum_at_least_one (total : Int) (cm : ℕ) (upm ppu sf : Int)
    (tiers : List Tier) (en : Bool)
    (htotal : 1 ≤ total) (hcm : 1 ≤ cm) (hupm : 1 ≤ upm) :
    1 ≤ total_unit_months (calculate_costs_over_time total cm upm ppu sf tiers en).1 ∧
    ∀ p2 s2 : Int,
      avg_prices (calculate_costs_over_time total cm upm ppu sf tiers en).1 p2 s2 en
        = ((p2 : ℚ),
            if en then
              (tco_scheduled (calculate_costs_over_time total cm upm ppu sf tiers en).1 : ℚ)
                / (total_unit_months (calculate_costs_over_time total cm upm ppu sf tiers en).1 : ℚ)
            else 0,
            (s2 : ℚ)
              / (total_unit_months (calculate_costs_over_time total cm upm ppu sf tiers en).1 : ℚ)) := by
  have e1 : total_unit_months (calculate_costs_over_time total cm upm ppu sf tiers en).1
      = (monthlyUnitsList total cm upm).sum := rfl
  have htum : 0 < total_unit_months (calculate_costs_over_time total cm upm ppu sf tiers en).1 := by
    rw [e1]
    exact unit_month_sum_pos total cm upm htotal hcm hupm
  refine ⟨htum, ?_⟩
  intro p2 s2
  simp only [avg_prices]
  rw [if_pos htum]

/-- Witness for C10 at the end-to-end scenario. -/
theorem C10_unit_month_sum_at_least_one_witness :
    1 ≤ total_unit_months (calculate_costs_over_time 50 48 5 1000 35000 [] true).1 :=
  (C10_unit_month_sum_at_least_one 50 48 5 1000 35000 [] true
      (by decide) (by decide) (by decide)).1

end PricingTool
